import Mathlib

/-!
Formal model of the pyfi database model layer (src/pyfi/db/model/models.py).

The file shallowly embeds the declarative schema of models.py: column
metadata (uniqueness, nullability, foreign keys), the privilege rights
enumeration, the grant/revoke relations of UserModel, the cascade
behaviour declared on the Processor and Socket relationships, the
Call/Event execution ledger, and the audit relations Log and Login.
Parts of the behaviour that models.py only declares data for (the
authorization decision procedure, the call state transitions, the socket
trigger semantics) are modelled from the specification and are marked as
such in their doc comments.
-/

/-- Metadata of one SQLAlchemy Column declaration as written in models.py:
whether the column carries a UNIQUE constraint and whether NULL is accepted. -/
structure ColumnSpec where
  unique : Bool
  nullable : Bool
deriving DecidableEq, Repr

/-- BaseModel.name (models.py line 109): Column(String(80), unique=True,
nullable=False, primary_key=True). All models that subclass BaseModel without
redeclaring name inherit this column. -/
def baseModelNameCol : ColumnSpec := { unique := true, nullable := false }

/-- CallModel.name (models.py line 585): Column(String(80), unique=False,
nullable=False) — the BaseModel unique constraint is dropped. -/
def callModelNameCol : ColumnSpec := { unique := false, nullable := false }

/-- DeploymentModel.name (models.py line 446): Column(String(80), unique=False,
nullable=False). -/
def deploymentModelNameCol : ColumnSpec := { unique := false, nullable := false }

/-- VersionModel.name (models.py line 430): Column(String(80), unique=False,
nullable=False). -/
def versionModelNameCol : ColumnSpec := { unique := false, nullable := false }

/-- ArgumentModel.name (models.py line 666): Column(String(60), nullable=False);
unique defaults to False in SQLAlchemy. -/
def argumentModelNameCol : ColumnSpec := { unique := false, nullable := false }

/-- EventModel.name (models.py line 707): Column(String(80), nullable=False);
unique defaults to False. -/
def eventModelNameCol : ColumnSpec := { unique := false, nullable := false }

/-- The name column of each model class of models.py that has one, paired with
the class name. UserModel, RoleModel, PrivilegeModel, NetworkModel,
SchedulerModel, NodeModel, AgentModel, WorkerModel, ProcessorModel, FlowModel,
FileModel, TaskModel, SocketModel, PlugModel, QueueModel, ActionModel,
ContainerModel, PasswordModel, SettingsModel, WorkModel and GateModel inherit
the BaseModel column unchanged; CallModel, DeploymentModel, VersionModel,
ArgumentModel and EventModel redeclare it with unique=False. LogModel,
LoginModel and JobModel have no name column at all. -/
def modelNameColumns : List (String × ColumnSpec) :=
  [("UserModel", baseModelNameCol), ("RoleModel", baseModelNameCol),
   ("PrivilegeModel", baseModelNameCol), ("NetworkModel", baseModelNameCol),
   ("SchedulerModel", baseModelNameCol), ("NodeModel", baseModelNameCol),
   ("AgentModel", baseModelNameCol), ("WorkerModel", baseModelNameCol),
   ("ProcessorModel", baseModelNameCol), ("FlowModel", baseModelNameCol),
   ("FileModel", baseModelNameCol), ("TaskModel", baseModelNameCol),
   ("SocketModel", baseModelNameCol), ("PlugModel", baseModelNameCol),
   ("QueueModel", baseModelNameCol), ("ActionModel", baseModelNameCol),
   ("ContainerModel", baseModelNameCol), ("PasswordModel", baseModelNameCol),
   ("SettingsModel", baseModelNameCol), ("WorkModel", baseModelNameCol),
   ("GateModel", baseModelNameCol),
   ("CallModel", callModelNameCol), ("DeploymentModel", deploymentModelNameCol),
   ("VersionModel", versionModelNameCol), ("ArgumentModel", argumentModelNameCol),
   ("EventModel", eventModelNameCol)]

/-- Result of one entity-store create. -/
inductive CreateResult
  | ok (names : List String)
  | validationError
deriving DecidableEq, Repr

/-- Entity-store create for one model type, tracking the stored name values.
The store rejects a missing name when the column is NOT NULL, and rejects an
already-present name exactly when the column carries a UNIQUE constraint. -/
def createRecord (col : ColumnSpec) (names : List String) (n : Option String) :
    CreateResult :=
  match n with
  | none => if col.nullable then CreateResult.ok names else CreateResult.validationError
  | some nm =>
      if col.unique && names.contains nm then CreateResult.validationError
      else CreateResult.ok (names ++ [nm])

/-- The uniqueness property claimed for one entity type at one name: the first
create succeeds and the second create of the same name fails with a
validation error. -/
def nameUniquenessHolds (col : ColumnSpec) (nm : String) : Prop :=
  createRecord col [] (some nm) = CreateResult.ok [nm] ∧
  createRecord col [nm] (some nm) = CreateResult.validationError

instance (col : ColumnSpec) (nm : String) : Decidable (nameUniquenessHolds col nm) := by
  unfold nameUniquenessHolds
  infer_instance

/-- The rights list of models.py lines 154 to 224, transcribed element for
element. The Python source writes, at line 175,
  "EDIT_PROCESSOR_CODE" "LS_PROCESSORS",
with no comma between the two string literals, so Python concatenates the two
adjacent literals into the single element EDIT_PROCESSOR_CODELS_PROCESSORS. -/
def rights : List String :=
  ["ALL", "CREATE", "READ", "UPDATE", "DELETE", "DB_DROP", "DB_INIT",
   "START_AGENT", "RUN_TASK", "CANCEL_TASK", "START_PROCESSOR",
   "STOP_PROCESSOR", "PAUSE_PROCESSOR", "RESUME_PROCESSOR", "LOCK_PROCESSOR",
   "UNLOCK_PROCESSOR", "VIEW_PROCESSOR", "VIEW_PROCESSOR_CONFIG",
   "VIEW_PROCESSOR_CODE", "EDIT_PROCESSOR_CONFIG",
   "EDIT_PROCESSOR_CODELS_PROCESSORS",
   "LS_USERS", "LS_USER", "LS_PLUGS", "LS_SOCKETS", "LS_QUEUES", "LS_AGENTS",
   "LS_NODES", "LS_SCHEDULERS", "LS_WORKERS",
   "ADD_PROCESSOR", "ADD_AGENT", "ADD_NODE", "ADD_PLUG", "ADD_PRIVILEGE",
   "ADD_QUEUE", "ADD_ROLE", "ADD_SCHEDULER", "ADD_SOCKET", "ADD_USER",
   "UPDATE_PROCESSOR", "UPDATE_AGENT", "UPDATE_NODE", "UPDATE_PLUG",
   "UPDATE_ROLE", "UPDATE_SCHEDULER", "UPDATE_SOCKET", "UPDATE_USER",
   "DELETE_PROCESSOR", "DELETE_AGENT", "DELETE_NODE", "DELETE_PLUG",
   "DELETE_PRIVILEGE", "DELETE_QUEUE", "DELETE_ROLE", "DELETE_SCHEDULER",
   "DELETE_SOCKET", "DELETE_USER",
   "READ_PROCESSOR", "READ_AGENT", "READ_NODE", "READ_LOG", "READ_PLUG",
   "READ_PRIVILEGE", "READ_QUEUE", "READ_ROLE", "READ_SCHEDULER",
   "READ_SOCKET", "READ_USER"]

/-- PrivilegeModel.right (models.py line 234) is Enum(*rights): a right value is
accepted exactly when it is a member of the rights list. -/
def validRight (r : String) : Bool := rights.contains r

/-- Modelled from the spec: models.py only declares the grant data of an actor
(UserModel.privileges, UserModel.revoked and UserModel.roles, models.py lines
289 to 297; each privilege carries a right string, each role a bundle of
privileges); the decision procedure itself is delegated to the external oso
engine and is specified in section 4.3 of the specification. -/
structure Actor where
  privileges : List String
  roles : List (List String)
  revoked : List String
deriving DecidableEq, Repr

/-- Modelled from the spec: steps 1 and 2 of the decision procedure of section
4.3 — the effective grant set is the union of the direct privileges and the
privileges of every held role, minus the revoked set. -/
def effectiveGrants (a : Actor) : List String :=
  (a.privileges ++ a.roles.flatten).filter (fun p => !(a.revoked.contains p))

/-- Outcome of the authorization decision procedure. -/
inductive Decision
  | allow
  | deny
deriving DecidableEq, Repr

/-- Modelled from the spec: steps 3 and 4 of the decision procedure of section
4.3 — ALL in the effective grant set grants every action; otherwise the action
must name-match an entry of the effective grant set; the default is deny. -/
def authorize (a : Actor) (act : String) : Decision :=
  if (effectiveGrants a).contains "ALL" then Decision.allow
  else if (effectiveGrants a).contains act then Decision.allow
  else Decision.deny

/-- TaskModel row (models.py 677..697): id from BaseModel, with module and
gitrepo as the further primary key columns. -/
structure TaskRow where
  id : String
  module : String
  gitrepo : String
deriving DecidableEq, Repr

/-- SocketModel row (models.py 746..783): id from BaseModel, processor_id
(ForeignKey processor.id, nullable=False), task_id (ForeignKey task.id) and
wait (default False). -/
structure SocketRow where
  id : String
  processor_id : String
  task_id : Option String
  wait : Bool
deriving DecidableEq, Repr

/-- PlugModel row (models.py 794..824): id from BaseModel, processor_id
(ForeignKey processor.id, nullable=False) and the RESULT or ERROR type. -/
structure PlugRow where
  id : String
  processor_id : String
  type : String
deriving DecidableEq, Repr

/-- DeploymentModel row (models.py 443..453): id from BaseModel and
processor_id (ForeignKey processor.id, nullable=False). -/
structure DeploymentRow where
  id : String
  processor_id : String
deriving DecidableEq, Repr

/-- ProcessorModel row (models.py 456..516): id from BaseModel; the many
configuration columns do not bear on the cascade claims and are not carried. -/
structure ProcessorRow where
  id : String
deriving DecidableEq, Repr

/-- The topology tables of models.py that the cascade rules range over.
Call rows are modelled separately in the execution ledger below. -/
structure Topology where
  processors : List ProcessorRow
  plugs : List PlugRow
  sockets : List SocketRow
  deployments : List DeploymentRow
  tasks : List TaskRow
deriving DecidableEq, Repr

/-- Socket deletion. SocketModel.task (models.py 761..767) is declared with
single_parent=True and cascade "delete, delete-orphan", so deleting a socket
also deletes the task row it references — unconditionally, whether or not any
other socket still references the same task. -/
def deleteSocket (t : Topology) (sid : String) : Topology :=
  match t.sockets.find? (fun s => s.id == sid) with
  | none => t
  | some s =>
      { t with
        sockets := t.sockets.filter (fun x => x.id != sid),
        tasks :=
          match s.task_id with
          | none => t.tasks
          | some tid => t.tasks.filter (fun tk => tk.id != tid) }

/-- Processor deletion. ProcessorModel.plugs, ProcessorModel.deployments and
ProcessorModel.sockets (models.py 506..516) are declared with cascade
"all, delete-orphan", so deleting a processor deletes every plug, deployment
and socket row whose processor_id references it; through the task cascade of
the deleted sockets (models.py 761..767) the tasks referenced by those sockets
are deleted transitively as well. -/
def deleteProcessor (t : Topology) (pid : String) : Topology :=
  { processors := t.processors.filter (fun p => p.id != pid),
    plugs := t.plugs.filter (fun p => p.processor_id != pid),
    sockets := t.sockets.filter (fun s => s.processor_id != pid),
    deployments := t.deployments.filter (fun d => d.processor_id != pid),
    tasks := t.tasks.filter (fun tk =>
      !(t.sockets.any (fun s => s.processor_id == pid && s.task_id == some tk.id))) }

/-- States of the call lifecycle of specification section 4.2; the state column
of CallModel (models.py 586) holds the state as a string. -/
inductive CallState
  | created
  | running
  | success
  | failure
deriving DecidableEq, Repr

/-- CallModel row (models.py 578..605): state, started (default=datetime.now,
nullable=False, so stamped at creation) and finished (a nullable DateTime,
NULL until written). Timestamps are carried as naturals. -/
structure CallRow where
  state : CallState
  started : Nat
  finished : Option Nat
deriving DecidableEq, Repr

/-- Call creation: started takes the creation time through the column default
(models.py 595), finished stays NULL (models.py 596); Modelled from the spec:
the initial state CREATED comes from section 4.2, the state transitions being
driven by the runtime outside the model layer. -/
def newCall (t : Nat) : CallRow :=
  { state := CallState.created, started := t, finished := none }

/-- Modelled from the spec: the call state machine of section 4.2 —
CREATED transitions to RUNNING, RUNNING transitions to exactly one of SUCCESS
or FAILURE, finished is stamped exactly at the terminal transition, and no
other transition exists. -/
def stepCall (c : CallRow) (target : CallState) (t : Nat) : Option CallRow :=
  match c.state, target with
  | CallState.created, CallState.running =>
      some { c with state := CallState.running }
  | CallState.running, CallState.success =>
      some { c with state := CallState.success, finished := some t }
  | CallState.running, CallState.failure =>
      some { c with state := CallState.failure, finished := some t }
  | _, _ => none

/-- Call rows reachable from creation through the state machine. -/
inductive CallReachable : CallRow → Prop
  | init (t : Nat) : CallReachable (newCall t)
  | step (c c2 : CallRow) (target : CallState) (t : Nat) :
      CallReachable c → stepCall c target t = some c2 → CallReachable c2

/-- All four call states, for quantifier-free statements over transitions. -/
def callTargets : List CallState :=
  [CallState.created, CallState.running, CallState.success, CallState.failure]

/-- EventModel row (models.py 700..715): id and name from BaseModel, the note
column, the call_id foreign key, and the created timestamp of BaseModel,
carried as a natural. -/
structure EventRow where
  id : String
  name : String
  note : String
  call_id : Option String
  created : Nat
deriving DecidableEq, Repr

/-- The event table together with the calls_events association table
(models.py 570..575): one association row is a (call_id, event_id) pair. -/
structure EventStore where
  events : List EventRow
  calls_events : List (String × String)
deriving DecidableEq, Repr

/-- Retrieval of the events of a call: CallModel.events (models.py 603..605) is
a relationship through the calls_events secondary table with no order_by
clause, so rows come back in storage order — the association rows of the call
are taken in table order and resolved against the event table. -/
def callEvents (st : EventStore) (cid : String) : List EventRow :=
  (st.calls_events.filter (fun a => a.1 == cid)).filterMap
    (fun a => st.events.find? (fun e => e.id == a.2))

/-- Appending an event to a call: a new event row and a new association row are
added at the end of their tables; no existing row is touched. -/
def appendEvent (st : EventStore) (cid : String) (e : EventRow) : EventStore :=
  { events := st.events ++ [e], calls_events := st.calls_events ++ [(cid, e.id)] }

/-- Whether a list of events is in reverse-chronological order, newest first by
creation time. -/
def newestFirst : List EventRow → Bool
  | [] => true
  | [_] => true
  | a :: b :: rest => (b.created ≤ a.created : Bool) && newestFirst (b :: rest)

/-- LogModel row (models.py 125..151): the polymorphic owner key is the pair of
the oid column and the discriminator column; user_id is a separate foreign key
naming the authoring user. -/
structure LogRow where
  id : String
  user_id : String
  oid : String
  discriminator : String
  text : String
  source : String
  created : Nat
deriving DecidableEq, Repr

/-- LoginModel row (models.py 845..871): a session row whose user_id column is
a plain ForeignKey into users.id; the model has no discriminator column. -/
structure LoginRow where
  id : String
  token : String
  user_id : String
  created : Nat
deriving DecidableEq, Repr

/-- Join condition of HasLogs.logs (models.py 81..92):
foreign(LogModel.oid) == cls.id AND LogModel.discriminator == cls.__name__ —
the lookup filters on the owner id and the owner type tag together. -/
def logsJoin (l : LogRow) (ownerId ownerType : String) : Bool :=
  l.oid == ownerId && l.discriminator == ownerType

/-- Join condition of HasLogins.logins (models.py 70..78):
foreign(LoginModel.user_id) == cls.id — the owner type appears nowhere in the
join condition. -/
def loginsJoin (l : LoginRow) (ownerId : String) : Bool :=
  l.user_id == ownerId

/-- The logs of an owner: the log table filtered through the HasLogs join
condition. The order_by desc(created) clause of the relationship does not bear
on which rows are returned and is not modelled here. -/
def logsFor (tbl : List LogRow) (ownerId ownerType : String) : List LogRow :=
  tbl.filter (fun l => logsJoin l ownerId ownerType)

/-- The logins of an owner: the login table filtered through the HasLogins join
condition, which mentions only the owner id. -/
def loginsFor (tbl : List LoginRow) (ownerId : String) : List LoginRow :=
  tbl.filter (fun l => loginsJoin l ownerId)

/-- The ForeignKey target of LoginModel.user_id (models.py 870): the per-type
key users.id. -/
def loginUserIdForeignKey : Option String := some "users.id"

/-- The ForeignKey target of LogModel.oid (models.py 145): none — the owning id
is free-form and is paired with the discriminator type tag instead. -/
def logOidForeignKey : Option String := none

/-- The column names of LogModel (models.py 125..151). -/
def logModelColumns : List String :=
  ["id", "user_id", "public", "created", "oid", "discriminator", "text", "source"]

/-- The column names of LoginModel (models.py 845..871). -/
def loginModelColumns : List String :=
  ["id", "owner", "created", "lastupdated", "login", "token", "user_id"]

/-- The column names of UserModel (models.py 279..297) together with the
inherited BaseModel columns (models.py 95..119); privileges, revoked, roles and
logins are relationship attributes, not columns. -/
def userModelColumns : List String :=
  ["id", "name", "owner", "status", "requested_status", "enabled", "created",
   "lastupdated", "email", "password", "clear"]

/-- UserModel.clear (models.py 287): Column(String(60), unique=False,
nullable=False) — the plaintext credential column, required on every row. -/
def userClearCol : ColumnSpec := { unique := false, nullable := false }

/-- Socket creation: SQLAlchemy applies the column default wait=False
(models.py 772..773) when no explicit wait value is supplied. -/
def mkSocket (sid pid : String) (tid : Option String) (w : Option Bool) :
    SocketRow :=
  { id := sid, processor_id := pid, task_id := tid, wait := w.getD false }

/-- Modelled from the spec: the fan-in trigger semantics of section 4.1 — with
wait true the task fires only once every source plug has delivered for the
current generation; with wait false the task fires independently on each
arriving delivery. The trigger runtime is outside the model layer; models.py
carries only the wait column. -/
def socketFires (s : SocketRow) (delivered total : Nat) : Bool :=
  if s.wait then delivered == total else delivered != 0

/-- An actor holding ALL directly, holding READ through a role, with READ in
the revoked set. -/
def c3Actor : Actor :=
  { privileges := ["ALL"], roles := [["READ"]], revoked := ["READ"] }

/-- The example actor of specification section 8: alice holds the editor role
granting READ and UPDATE, and carries a direct revoke of UPDATE. -/
def alice : Actor :=
  { privileges := [], roles := [["READ", "UPDATE"]], revoked := ["UPDATE"] }

/-- A topology in which two sockets s1 and s2 of processor p1 both reference
the same task t1. -/
def c4Topology : Topology :=
  { processors := [{ id := "p1" }],
    plugs := [],
    sockets :=
      [{ id := "s1", processor_id := "p1", task_id := some "t1", wait := false },
       { id := "s2", processor_id := "p1", task_id := some "t1", wait := false }],
    deployments := [],
    tasks := [{ id := "t1", module := "m", gitrepo := "r" }] }

/-- A topology with processor p1 carrying two plugs, one socket and one
deployment, next to an unrelated processor p2 with one plug. -/
def c5Topology : Topology :=
  { processors := [{ id := "p1" }, { id := "p2" }],
    plugs :=
      [{ id := "g1", processor_id := "p1", type := "RESULT" },
       { id := "g2", processor_id := "p1", type := "ERROR" },
       { id := "g3", processor_id := "p2", type := "RESULT" }],
    sockets :=
      [{ id := "s1", processor_id := "p1", task_id := none, wait := false }],
    deployments := [{ id := "d1", processor_id := "p1" }],
    tasks := [] }

/-- An event created at time 1 for call c1. -/
def c7Event1 : EventRow :=
  { id := "e1", name := "received", note := "n1", call_id := some "c1", created := 1 }

/-- An event created at time 2 for call c1. -/
def c7Event2 : EventRow :=
  { id := "e2", name := "prerun", note := "n2", call_id := some "c1", created := 2 }

/-- The store obtained by appending the two events of call c1 in creation
order. -/
def c7Store : EventStore :=
  appendEvent (appendEvent { events := [], calls_events := [] } "c1" c7Event1)
    "c1" c7Event2

/-- A login row of user u1. -/
def c8Login : LoginRow :=
  { id := "l1", token := "tok1", user_id := "u1", created := 5 }

/-- Splitting the length of a list into the kept and the dropped part of a
filter. -/
theorem length_filter_split {α : Type} (l : List α) (p : α → Bool) :
    l.length = (l.filter (fun a => !(p a))).length + l.countP p := by
  rw [List.countP_eq_length_filter]
  have h := List.length_eq_length_filter_add (l := l) (fun a => !(p a))
  simpa using h

/-- C1. The claim reads: for every entity type, creating two records of the
same type with identical name yields exactly one success and one
ValidationError, in particular for Call, Deployment and Version records. The
CallModel name column is declared with unique=False (models.py 585), so the
second create of an identically named call succeeds as well: no
ValidationError is raised. -/
theorem c1_call_duplicate_name_accepted :
    ¬ nameUniquenessHolds callModelNameCol "fn" ∧
    createRecord callModelNameCol [] (some "fn") = CreateResult.ok ["fn"] ∧
    createRecord callModelNameCol ["fn"] (some "fn")
      = CreateResult.ok ["fn", "fn"] := by
  decide

/-- C1 (amended): for every entity type whose name column keeps the unique
constraint of BaseModel.name (models.py 109) — every model of
modelNameColumns except CallModel, DeploymentModel, VersionModel,
ArgumentModel and EventModel — creating two records with the same name yields
one success and one ValidationError, and a create without a name is rejected. -/
theorem c1_unique_name_models (entry : String × ColumnSpec) (nm : String)
    (hmem : entry ∈ modelNameColumns) (hu : entry.2.unique = true) :
    nameUniquenessHolds entry.2 nm ∧
    createRecord entry.2 [] none = CreateResult.validationError := by
  have hall : modelNameColumns.all (fun e => e.2.nullable == false) = true := by
    decide
  have hn : entry.2.nullable = false := by
    simpa using List.all_eq_true.mp hall entry hmem
  refine ⟨⟨?_, ?_⟩, ?_⟩
  · simp [createRecord]
  · simp [createRecord, hu]
  · simp [createRecord, hn]

/-- C1 witness: the amended statement applied to the UserModel name column at
the name alpha. -/
theorem c1_unique_name_models_witness :
    ("UserModel", baseModelNameCol) ∈ modelNameColumns ∧
    baseModelNameCol.unique = true ∧
    (nameUniquenessHolds baseModelNameCol "alpha" ∧
      createRecord baseModelNameCol [] none = CreateResult.validationError) :=
  ⟨by decide, by decide,
    c1_unique_name_models ("UserModel", baseModelNameCol) "alpha"
      (by decide) (by decide)⟩

/-- C2. The claim reads: the Privilege right enumeration contains
EDIT_PROCESSOR_CODE and LS_PROCESSORS as two distinct members. The missing
comma at models.py line 175 fuses the two string literals, so the enumeration
accepts only the single fused member EDIT_PROCESSOR_CODELS_PROCESSORS and
accepts neither EDIT_PROCESSOR_CODE nor LS_PROCESSORS. -/
theorem c2_rights_missing_comma :
    validRight "EDIT_PROCESSOR_CODELS_PROCESSORS" = true ∧
    validRight "EDIT_PROCESSOR_CODE" = false ∧
    validRight "LS_PROCESSORS" = false ∧
    rights.length = 69 := by
  decide

/-- C3. The claim reads: whenever privilege P is in the revoked set of actor A,
authorize(A, P, _) is deny. Against the decision procedure of specification
section 4.3 this fails when the actor also holds the unrevoked privilege ALL:
step 3 grants every action from ALL after the revoked set has been subtracted,
so the revoked action READ is still allowed here. -/
theorem c3_revoked_yet_allowed_under_all :
    "READ" ∈ c3Actor.revoked ∧
    "READ" ∈ c3Actor.roles.flatten ∧
    authorize c3Actor "READ" ≠ Decision.deny := by
  decide

/-- C3 (amended): if privilege P is in the revoked set of actor A and ALL is
not in the effective grant set of A, then authorize(A, P, _) is deny —
revocation removes P from the effective grant set no matter whether P was
granted directly or through a role. -/
theorem c3_revocation_wins (a : Actor) (p : String)
    (hrev : p ∈ a.revoked) (hall : "ALL" ∉ effectiveGrants a) :
    authorize a p = Decision.deny := by
  have hp : p ∉ effectiveGrants a := by
    intro hmem
    have h2 := (List.mem_filter.mp hmem).2
    simp [List.contains] at h2
    exact h2 hrev
  simp [authorize, List.contains, hall, hp]

/-- C3 witness: the example of specification section 8 — alice holds the
editor role granting READ and UPDATE and carries a direct revoke of UPDATE,
and authorize(alice, UPDATE, _) is deny. -/
theorem c3_revocation_wins_witness :
    "UPDATE" ∈ alice.revoked ∧ "ALL" ∉ effectiveGrants alice ∧
    authorize alice "UPDATE" = Decision.deny :=
  ⟨by decide, by decide, c3_revocation_wins alice "UPDATE" (by decide) (by decide)⟩

/-- C4. The claim reads: deleting a Socket removes the referenced Task only
when no other Socket references the same Task. The cascade declared on
SocketModel.task (models.py 761..767) is unconditional: here sockets s1 and s2
both reference task t1, yet deleting s1 removes t1 from the task table while
s2 survives with a dangling task_id. -/
theorem c4_socket_delete_drops_shared_task :
    ({ id := "s2", processor_id := "p1", task_id := some "t1", wait := false }
        : SocketRow) ∈ (deleteSocket c4Topology "s1").sockets ∧
    (deleteSocket c4Topology "s1").tasks = [] := by
  decide

/-- C4 (amended): deleting a Socket removes the Task it references
unconditionally — after the deletion no task row with the referenced id
remains, whether or not other sockets still reference it. -/
theorem c4_task_cascade_unconditional (t : Topology) (sid tid : String)
    (s : SocketRow)
    (hfind : t.sockets.find? (fun x => x.id == sid) = some s)
    (htid : s.task_id = some tid) :
    (deleteSocket t sid).tasks.all (fun tk => tk.id != tid) = true := by
  rw [List.all_eq_true]
  intro tk hmem
  simp only [deleteSocket, hfind, htid] at hmem
  exact (List.mem_filter.mp hmem).2

/-- C4 witness: the amended statement applied to the shared-task topology. -/
theorem c4_task_cascade_unconditional_witness :
    c4Topology.sockets.find? (fun x => x.id == "s1")
      = some { id := "s1", processor_id := "p1", task_id := some "t1",
               wait := false } ∧
    (deleteSocket c4Topology "s1").tasks.all (fun tk => tk.id != "t1") = true :=
  ⟨by decide,
    c4_task_cascade_unconditional c4Topology "s1" "t1"
      { id := "s1", processor_id := "p1", task_id := some "t1", wait := false }
      (by decide) rfl⟩

/-- C5. Deleting a Processor with N plugs, M sockets and K deployments removes
all the child rows referencing it together with it: afterwards no plug, socket
or deployment row referencing the processor remains, and each child table
shrinks by exactly the number of rows that referenced the processor. -/
theorem c5_processor_cascade (t : Topology) (pid : String) :
    ((deleteProcessor t pid).plugs.all (fun p => p.processor_id != pid) = true ∧
     (deleteProcessor t pid).sockets.all (fun s => s.processor_id != pid) = true ∧
     (deleteProcessor t pid).deployments.all
        (fun d => d.processor_id != pid) = true) ∧
    (t.plugs.length
       = (deleteProcessor t pid).plugs.length
         + t.plugs.countP (fun p => p.processor_id == pid) ∧
     t.sockets.length
       = (deleteProcessor t pid).sockets.length
         + t.sockets.countP (fun s => s.processor_id == pid) ∧
     t.deployments.length
       = (deleteProcessor t pid).deployments.length
         + t.deployments.countP (fun d => d.processor_id == pid)) := by
  have hall : ∀ {α : Type} (l : List α) (f : α → String),
      (l.filter (fun x => f x != pid)).all (fun x => f x != pid) = true := by
    intro α l f
    rw [List.all_eq_true]
    intro x hx
    exact (List.mem_filter.mp hx).2
  have hlen : ∀ {α : Type} (l : List α) (f : α → String),
      l.length = (l.filter (fun x => f x != pid)).length
        + l.countP (fun x => f x == pid) := by
    intro α l f
    simpa [bne] using length_filter_split l (fun x => f x == pid)
  exact ⟨⟨hall t.plugs (fun p => p.processor_id),
          hall t.sockets (fun s => s.processor_id),
          hall t.deployments (fun d => d.processor_id)⟩,
         ⟨hlen t.plugs (fun p => p.processor_id),
          hlen t.sockets (fun s => s.processor_id),
          hlen t.deployments (fun d => d.processor_id)⟩⟩

/-- C5 witness: the cascade evaluated on a processor with two plugs, one
socket and one deployment, next to an unrelated processor. -/
theorem c5_processor_cascade_witness :
    ((deleteProcessor c5Topology "p1").plugs.all
        (fun p => p.processor_id != "p1") = true ∧
     (deleteProcessor c5Topology "p1").sockets.all
        (fun s => s.processor_id != "p1") = true ∧
     (deleteProcessor c5Topology "p1").deployments.all
        (fun d => d.processor_id != "p1") = true) ∧
    (c5Topology.plugs.length
       = (deleteProcessor c5Topology "p1").plugs.length
         + c5Topology.plugs.countP (fun p => p.processor_id == "p1") ∧
     c5Topology.sockets.length
       = (deleteProcessor c5Topology "p1").sockets.length
         + c5Topology.sockets.countP (fun s => s.processor_id == "p1") ∧
     c5Topology.deployments.length
       = (deleteProcessor c5Topology "p1").deployments.length
         + c5Topology.deployments.countP (fun d => d.processor_id == "p1")) :=
  c5_processor_cascade c5Topology "p1"

/-- The finished stamp of a reachable call row is set exactly when the call
has left the non-terminal states. -/
theorem callReachable_finished_iff (c : CallRow) (h : CallReachable c) :
    c.finished = none ↔
      (c.state = CallState.created ∨ c.state = CallState.running) := by
  induction h with
  | init s => simp [newCall]
  | step c3 c4 target tm hr hstep ih =>
      cases hc : c3.state <;> cases htg : target <;>
        simp only [stepCall, hc, htg] at hstep <;>
        (try cases hstep) <;> simp_all

/-- C6. A call starts in CREATED with started stamped at creation and finished
unset; the only transition out of CREATED goes to RUNNING (no transition skips
RUNNING); RUNNING transitions to exactly one of SUCCESS or FAILURE, both
terminal (no further transition applies); and along every reachable call row
finished stays unset until a terminal state is reached, where it is set. The
started and finished columns are embedded from models.py 595..596; the state
transitions are modelled from specification section 4.2. -/
theorem c6_call_state_machine (t u v : Nat) (c : CallRow) (h : CallReachable c) :
    ((newCall t).state = CallState.created ∧ (newCall t).started = t ∧
      (newCall t).finished = none) ∧
    (stepCall (newCall t) CallState.running u
        = some { state := CallState.running, started := t, finished := none } ∧
      stepCall (newCall t) CallState.created u = none ∧
      stepCall (newCall t) CallState.success u = none ∧
      stepCall (newCall t) CallState.failure u = none) ∧
    (callTargets.all (fun tgt =>
        (stepCall { state := CallState.success, started := t, finished := some u }
          tgt v).isNone) = true ∧
      callTargets.all (fun tgt =>
        (stepCall { state := CallState.failure, started := t, finished := some u }
          tgt v).isNone) = true) ∧
    (c.finished = none ↔
      (c.state = CallState.created ∨ c.state = CallState.running)) :=
  ⟨⟨rfl, rfl, rfl⟩, ⟨rfl, rfl, rfl, rfl⟩, ⟨rfl, rfl⟩,
    callReachable_finished_iff c h⟩

/-- C6 witness: the state machine statement at a freshly created call. -/
theorem c6_call_state_machine_witness :
    ((newCall 1).state = CallState.created ∧ (newCall 1).started = 1 ∧
      (newCall 1).finished = none) ∧
    (stepCall (newCall 1) CallState.running 2
        = some { state := CallState.running, started := 1, finished := none } ∧
      stepCall (newCall 1) CallState.created 2 = none ∧
      stepCall (newCall 1) CallState.success 2 = none ∧
      stepCall (newCall 1) CallState.failure 2 = none) ∧
    (callTargets.all (fun tgt =>
        (stepCall { state := CallState.success, started := 1, finished := some 2 }
          tgt 3).isNone) = true ∧
      callTargets.all (fun tgt =>
        (stepCall { state := CallState.failure, started := 1, finished := some 2 }
          tgt 3).isNone) = true) ∧
    ((newCall 0).finished = none ↔
      ((newCall 0).state = CallState.created ∨
        (newCall 0).state = CallState.running)) :=
  c6_call_state_machine 1 2 3 (newCall 0) (CallReachable.init 0)

/-- C7. The claim reads: the events of a call are retrievable in
reverse-chronological order, newest first by creation time. CallModel.events
(models.py 603..605) declares no order_by clause — unlike the logs and logins
relations, which order by created desc — so retrieval returns storage order:
appending two events in creation order here yields the oldest event first. -/
theorem c7_events_not_newest_first :
    callEvents c7Store "c1" = [c7Event1, c7Event2] ∧
    c7Event1.created < c7Event2.created ∧
    newestFirst (callEvents c7Store "c1") = false := by
  decide

/-- C7 (amended): events are append-only children of a call — appending an
event with a fresh id leaves every previously retrievable event in place,
unchanged and in position, and adds the new event at the end of the retrieval
(storage) order; no retrieval ordering clause is declared. -/
theorem c7_events_append_only (st : EventStore) (cid : String) (e : EventRow)
    (h1 : st.events.all (fun x => x.id != e.id) = true)
    (h2 : st.calls_events.all (fun a => a.2 != e.id) = true) :
    callEvents (appendEvent st cid e) cid = callEvents st cid ++ [e] := by
  simp only [callEvents, appendEvent]
  have hfilter : (st.calls_events ++ [(cid, e.id)]).filter (fun a => a.1 == cid)
      = st.calls_events.filter (fun a => a.1 == cid) ++ [(cid, e.id)] := by
    simp
  rw [hfilter, List.filterMap_append]
  have hnone : st.events.find? (fun x => x.id == e.id) = none := by
    rw [List.find?_eq_none]
    intro x hx
    have hb := List.all_eq_true.mp h1 x hx
    simpa using hb
  congr 1
  · apply List.filterMap_congr
    intro a ha
    have hane : (a.2 != e.id) = true :=
      List.all_eq_true.mp h2 a (List.mem_filter.mp ha).1
    have hne : ¬ (e.id == a.2) = true := by
      simp only [bne_iff_ne, ne_eq] at hane
      simp [beq_iff_eq]
      intro hEq
      exact hane hEq.symm
    rw [List.find?_append]
    have he : List.find? (fun x => x.id == a.2) [e] = none := by
      simp [List.find?_singleton, hne]
    rw [he, Option.or_none]
  · simp [List.filterMap, List.find?_append, hnone]

/-- C7 witness: appending a fresh event to the two-event store keeps the two
stored events in place and adds the new one at the end. -/
theorem c7_events_append_only_witness :
    c7Store.events.all (fun x => x.id != "e3") = true ∧
    c7Store.calls_events.all (fun a => a.2 != "e3") = true ∧
    callEvents (appendEvent c7Store "c1"
        { id := "e3", name := "postrun", note := "n3", call_id := some "c1",
          created := 3 }) "c1"
      = callEvents c7Store "c1"
        ++ [{ id := "e3", name := "postrun", note := "n3", call_id := some "c1",
              created := 3 }] :=
  ⟨by decide, by decide,
    c7_events_append_only c7Store "c1"
      { id := "e3", name := "postrun", note := "n3", call_id := some "c1",
        created := 3 } (by decide) (by decide)⟩

/-- C8. The claim reads: both Log and Login attach to their owner through an
(owning-id, owning-type-tag) pair rather than a per-type foreign key, and
every lookup filters on both fields together. LoginModel has no discriminator
column, its user_id column is the per-type foreign key users.id (models.py
870), and the HasLogins join condition mentions only the owner id — the same
login row is matched under two different owner type tags, while the HasLogs
join rejects a mismatched tag. -/
theorem c8_login_not_polymorphic :
    "discriminator" ∈ logModelColumns ∧
    "discriminator" ∉ loginModelColumns ∧
    loginUserIdForeignKey = some "users.id" ∧
    logOidForeignKey = none ∧
    loginsJoin c8Login "u1" = true ∧
    logsJoin { id := "g1", user_id := "u1", oid := "u1",
               discriminator := "UserModel", text := "t", source := "s",
               created := 1 } "u1" "ProcessorModel" = false := by
  decide

/-- C8 (amended): the Log lookup is polymorphic and filters on the owning id
and the owning type tag together — a stored log row is returned exactly when
both match — while the Login lookup attaches to users through the per-type
foreign key user_id and filters on the owning id alone. -/
theorem c8_logs_filter_both_logins_filter_id (tbl : List LogRow)
    (tbl2 : List LoginRow) (l : LogRow) (lg : LoginRow)
    (hl : l ∈ tbl) (hlg : lg ∈ tbl2) (oid otype : String) :
    (l ∈ logsFor tbl oid otype ↔ (l.oid = oid ∧ l.discriminator = otype)) ∧
    (lg ∈ loginsFor tbl2 oid ↔ lg.user_id = oid) := by
  constructor
  · rw [logsFor]
    simp [List.mem_filter, logsJoin, hl]
  · rw [loginsFor]
    simp [List.mem_filter, loginsJoin, hlg]

/-- C8 witness: the amended statement at a one-row log table and a one-row
login table. -/
theorem c8_logs_filter_both_logins_filter_id_witness :
    ({ id := "g1", user_id := "u1", oid := "u1", discriminator := "UserModel",
       text := "t", source := "s", created := 1 } : LogRow)
      ∈ [({ id := "g1", user_id := "u1", oid := "u1",
            discriminator := "UserModel", text := "t", source := "s",
            created := 1 } : LogRow)] ∧
    c8Login ∈ [c8Login] ∧
    ((({ id := "g1", user_id := "u1", oid := "u1", discriminator := "UserModel",
         text := "t", source := "s", created := 1 } : LogRow)
        ∈ logsFor [{ id := "g1", user_id := "u1", oid := "u1",
                     discriminator := "UserModel", text := "t", source := "s",
                     created := 1 }] "u1" "ProcessorModel"
      ↔ (("u1" : String) = "u1" ∧ ("UserModel" : String) = "ProcessorModel")) ∧
     (c8Login ∈ loginsFor [c8Login] "u1" ↔ c8Login.user_id = "u1")) :=
  ⟨by decide, by decide,
    c8_logs_filter_both_logins_filter_id
      [{ id := "g1", user_id := "u1", oid := "u1", discriminator := "UserModel",
         text := "t", source := "s", created := 1 }]
      [c8Login]
      { id := "g1", user_id := "u1", oid := "u1", discriminator := "UserModel",
        text := "t", source := "s", created := 1 }
      c8Login (by decide) (by decide) "u1" "ProcessorModel"⟩

/-- C9. The claim reads: the User entity stores no plaintext credential field
alongside the hashed password field. UserModel declares the clear column
(models.py 287) next to password, and declares it nullable=False, so every
stored user row carries the plaintext credential. -/
theorem c9_clear_column_present :
    "clear" ∈ userModelColumns ∧
    "password" ∈ userModelColumns ∧
    userClearCol.nullable = false := by
  decide

/-- C10. A socket created without an explicit wait value gets wait = false
from the column default (models.py 772..773), and under the fan-in semantics
of specification section 4.1 such a socket fires its task on each arriving
delivery — already on the first, without waiting for the remaining source
plugs. -/
theorem c10_wait_defaults_false (sid pid : String) (tid : Option String)
    (d total : Nat) (hd : d ≠ 0) :
    (mkSocket sid pid tid none).wait = false ∧
    socketFires (mkSocket sid pid tid none) d total = true := by
  constructor
  · rfl
  · simp [socketFires, mkSocket, hd]

/-- C10 witness: a default socket with three source plugs fires on the first
delivery. -/
theorem c10_wait_defaults_false_witness :
    (1 : Nat) ≠ 0 ∧
    (mkSocket "s1" "p1" none none).wait = false ∧
    socketFires (mkSocket "s1" "p1" none none) 1 3 = true :=
  ⟨by decide,
    (c10_wait_defaults_false "s1" "p1" none 1 3 (by decide)).1,
    (c10_wait_defaults_false "s1" "p1" none 1 3 (by decide)).2⟩
